import Mathlib

/-
Shallow embedding of the core of `petpy` (`petpy/api.py`): the parameter
validator `_check_parameters`, the parameter assembler `_parameters`, and the
pagination aggregation performed by `Petfinder.animals` and
`Petfinder.organizations`.  HTTP transport is abstracted as explicit fetch
functions passed to the operations; every issued request is recorded in a
request log so that statements about which fetches happen are provable.
-/

namespace Petpy

/-- Python values that are either a single `str` or a `list`/`tuple` of `str`
(the duck-typed "str or collection" filter arguments of the source). -/
inductive StrOrList where
  | scalar (s : String)
  | collection (l : List String)
deriving DecidableEq

/-- The source's `if isinstance(x, str): x = [x]` normalization: a scalar
string becomes a one-element list, a collection is left as is. -/
def normalizeArg : StrOrList → List String
  | .scalar s => [s]
  | .collection l => l

/-- Enumeration table `_animal_types` from `_check_parameters`. -/
def _animal_types : List String :=
  ["dog", "cat", "rabbit", "small-furry", "horse", "bird",
   "scales-fins-other", "barnyard"]

/-- Enumeration table `_sizes` from `_check_parameters`. -/
def _sizes : List String := ["small", "medium", "large", "xlarge"]

/-- Enumeration table `_genders` from `_check_parameters`. -/
def _genders : List String := ["male", "female", "unknown"]

/-- Enumeration table `_ages` from `_check_parameters`. -/
def _ages : List String := ["baby", "young", "adult", "senior"]

/-- Enumeration table `_coats` from `_check_parameters`. -/
def _coats : List String := ["short", "medium", "long", "wire", "hairless", "curly"]

/-- Enumeration table `_status` from `_check_parameters`. -/
def _status : List String := ["adoptable", "adopted", "found"]

/-- Enumeration table `_location` from `_check_parameters` (the three format
tags, not actual locations). -/
def _location : List String := ["city,state", "latitude,longitude", "postal code"]

/-- Enumeration table `_sort` from `_check_parameters`. -/
def _sort : List String := ["recent", "-recent", "distance", "-distance"]

/-- Rendering of a Python `str` inside a `repr` of a container: the string
surrounded by single quotes. -/
def pyStr (s : String) : String := "\x27" ++ s ++ "\x27"

/-- Comma-space joining of strings, as Python uses inside container `repr`s. -/
def pyJoin : List String → String
  | [] => ""
  | [s] => s
  | s :: t :: r => s ++ ", " ++ pyJoin (t :: r)

/-- Rendering of a Python tuple of strings, as interpolated by `str.format`
for the accepted-value tables (e.g. `('small', 'medium', 'large', 'xlarge')`). -/
def pyTuple (l : List String) : String := "(" ++ pyJoin (l.map pyStr) ++ ")"

/-- Rendering of a (non-empty) Python set of strings, as interpolated by
`str.format` for the offending-value sets (e.g. `{'huge'}`).  CPython's set
iteration order is unspecified, so the embedding fixes one canonical order
(the order produced by `pyDiff`). -/
def pySet (l : List String) : String := "\x7b" ++ pyJoin (l.map pyStr) ++ "\x7d"

/-- The source's `set(xs).difference(valid)`: the distinct members of `xs`
that are not members of `valid` (in a canonical order; Python's set order is
unspecified). -/
def pyDiff (xs valid : List String) : List String :=
  (xs.filter (fun s => !valid.contains s)).dedup

/-- The argument record of `_check_parameters` (all parameters default to
`None` in the source).  `animal_types`, `status`, `location` and `sort` are
single values in the source's checks; `size`, `gender`, `age` and `coat`
accept a string or a collection; `distance` and `limit` are integers (the
source applies `int(...)` before comparing). -/
structure CheckParams where
  animal_types : Option String
  size : Option StrOrList
  gender : Option StrOrList
  age : Option StrOrList
  coat : Option StrOrList
  status : Option String
  location : Option String
  distance : Option Int
  sort : Option String
  limit : Option Int
deriving DecidableEq

/-- A `CheckParams` value with every filter dimension unset. -/
def noParams : CheckParams :=
  { animal_types := none, size := none, gender := none, age := none,
    coat := none, status := none, location := none, distance := none,
    sort := none, limit := none }

/-- Message stored under key `animal_types` (wording exactly as in the
source, including the missing "be"). -/
def animal_types_message (t : String) : String :=
  "animal types " ++ t ++ " is not valid. Animal types must of the following: "
    ++ pyTuple _animal_types

/-- Message stored under key `size`. -/
def size_message (diff : List String) : String :=
  "sizes " ++ pySet diff ++ " are not valid. Sizes must be of the following: "
    ++ pyTuple _sizes

/-- Message stored under key `gender`. -/
def gender_message (diff : List String) : String :=
  "genders " ++ pySet diff ++ " are not valid. Genders must be of the following: "
    ++ pyTuple _genders

/-- Message stored under key `age`. -/
def age_message (diff : List String) : String :=
  "ages " ++ pySet diff ++ " are not valid. Ages must be of the following: "
    ++ pyTuple _ages

/-- Message stored under key `coat`. -/
def coat_message (diff : List String) : String :=
  "coats " ++ pySet diff ++ " are not valid. Coats must be of the following: "
    ++ pyTuple _coats

/-- Message stored under key `status`. -/
def status_message (s : String) : String :=
  "animal status " ++ s ++ " is not valid. Status must be of the following: "
    ++ pyTuple _status

/-- Message stored under key `sort`. -/
def sort_message (s : String) : String :=
  "sort order " ++ s ++ " must be one of: " ++ pyTuple _sort

/-- Message stored under key `location`. -/
def location_message (s : String) : String :=
  "location " ++ s ++ " must be one of: " ++ pyTuple _location

/-- Message stored under key `distance`. -/
def distance_message : String := "distance cannot be greater than 500"

/-- Message stored under key `limit`. -/
def limit_message : String := "results per page cannot be greater than 100"

/-- Offending values of the `size` dimension (the set difference computed by
the source after scalar normalization). -/
def size_offending (p : CheckParams) : List String :=
  match p.size with
  | none => []
  | some x => pyDiff (normalizeArg x) _sizes

/-- Offending values of the `gender` dimension. -/
def gender_offending (p : CheckParams) : List String :=
  match p.gender with
  | none => []
  | some x => pyDiff (normalizeArg x) _genders

/-- Offending values of the `age` dimension. -/
def age_offending (p : CheckParams) : List String :=
  match p.age with
  | none => []
  | some x => pyDiff (normalizeArg x) _ages

/-- Offending values of the `coat` dimension. -/
def coat_offending (p : CheckParams) : List String :=
  match p.coat with
  | none => []
  | some x => pyDiff (normalizeArg x) _coats

/-- The `animal_types` check of `_check_parameters`: error entry produced
when the value is set and not a member of `_animal_types`. -/
def animal_types_error (p : CheckParams) : Option String :=
  match p.animal_types with
  | none => none
  | some t => if _animal_types.contains t then none else some (animal_types_message t)

/-- The `size` check of `_check_parameters`. -/
def size_error (p : CheckParams) : Option String :=
  match p.size with
  | none => none
  | some x =>
    let diff := pyDiff (normalizeArg x) _sizes
    if diff.isEmpty then none else some (size_message diff)

/-- The `gender` check of `_check_parameters`. -/
def gender_error (p : CheckParams) : Option String :=
  match p.gender with
  | none => none
  | some x =>
    let diff := pyDiff (normalizeArg x) _genders
    if diff.isEmpty then none else some (gender_message diff)

/-- The `age` check of `_check_parameters`. -/
def age_error (p : CheckParams) : Option String :=
  match p.age with
  | none => none
  | some x =>
    let diff := pyDiff (normalizeArg x) _ages
    if diff.isEmpty then none else some (age_message diff)

/-- The `coat` check of `_check_parameters`. -/
def coat_error (p : CheckParams) : Option String :=
  match p.coat with
  | none => none
  | some x =>
    let diff := pyDiff (normalizeArg x) _coats
    if diff.isEmpty then none else some (coat_message diff)

/-- The `status` check of `_check_parameters`. -/
def status_error (p : CheckParams) : Option String :=
  match p.status with
  | none => none
  | some s => if _status.contains s then none else some (status_message s)

/-- The `sort` check of `_check_parameters`. -/
def sort_error (p : CheckParams) : Option String :=
  match p.sort with
  | none => none
  | some s => if _sort.contains s then none else some (sort_message s)

/-- The `location` check of `_check_parameters` (membership in the fixed
tuple of format tags). -/
def location_error (p : CheckParams) : Option String :=
  match p.location with
  | none => none
  | some s => if _location.contains s then none else some (location_message s)

/-- The `distance` check of `_check_parameters` (`int(distance) > 500`). -/
def distance_error (p : CheckParams) : Option String :=
  match p.distance with
  | none => none
  | some d => if d > 500 then some distance_message else none

/-- The `limit` check of `_check_parameters` (`int(limit) > 100`). -/
def limit_error (p : CheckParams) : Option String :=
  match p.limit with
  | none => none
  | some n => if n > 100 then some limit_message else none

/-- A key/message entry of the `incorrect_values` dict, when present. -/
def dictEntry (k : String) : Option String → List (String × String)
  | none => []
  | some m => [(k, m)]

/-- The `incorrect_values` dict built by `_check_parameters`, as an ordered
association list; insertion order is the source's check order. -/
def incorrect_values (p : CheckParams) : List (String × String) :=
  dictEntry "animal_types" (animal_types_error p) ++
  dictEntry "size" (size_error p) ++
  dictEntry "gender" (gender_error p) ++
  dictEntry "age" (age_error p) ++
  dictEntry "coat" (coat_error p) ++
  dictEntry "status" (status_error p) ++
  dictEntry "sort" (sort_error p) ++
  dictEntry "location" (location_error p) ++
  dictEntry "distance" (distance_error p) ++
  dictEntry "limit" (limit_error p)

/-- The `_check_parameters` function: `none` models a normal return, and
`some errors` models `raise ValueError(errors)` where `errors` is the fold
`errors = errors + v + '\n'` over the values of `incorrect_values`. -/
def _check_parameters (p : CheckParams) : Option String :=
  let iv := incorrect_values p
  if iv.isEmpty then none
  else some (iv.foldl (fun errors kv => errors ++ kv.2 ++ "\n") "")

/-- Validity of the `animal_types` dimension, phrased as plain membership. -/
def animal_types_ok (p : CheckParams) : Bool :=
  match p.animal_types with
  | none => true
  | some t => _animal_types.contains t

/-- Validity of the `size` dimension: every supplied value is accepted. -/
def size_ok (p : CheckParams) : Bool :=
  match p.size with
  | none => true
  | some x => (normalizeArg x).all (fun v => _sizes.contains v)

/-- Validity of the `gender` dimension. -/
def gender_ok (p : CheckParams) : Bool :=
  match p.gender with
  | none => true
  | some x => (normalizeArg x).all (fun v => _genders.contains v)

/-- Validity of the `age` dimension. -/
def age_ok (p : CheckParams) : Bool :=
  match p.age with
  | none => true
  | some x => (normalizeArg x).all (fun v => _ages.contains v)

/-- Validity of the `coat` dimension. -/
def coat_ok (p : CheckParams) : Bool :=
  match p.coat with
  | none => true
  | some x => (normalizeArg x).all (fun v => _coats.contains v)

/-- Validity of the `status` dimension. -/
def status_ok (p : CheckParams) : Bool :=
  match p.status with
  | none => true
  | some s => _status.contains s

/-- Validity of the `sort` dimension. -/
def sort_ok (p : CheckParams) : Bool :=
  match p.sort with
  | none => true
  | some s => _sort.contains s

/-- Validity of the `location` dimension (membership in the format tags). -/
def location_ok (p : CheckParams) : Bool :=
  match p.location with
  | none => true
  | some s => _location.contains s

/-- Validity of the `distance` dimension. -/
def distance_ok (p : CheckParams) : Bool :=
  match p.distance with
  | none => true
  | some d => d ≤ 500

/-- Validity of the `limit` dimension. -/
def limit_ok (p : CheckParams) : Bool :=
  match p.limit with
  | none => true
  | some n => n ≤ 100

/-- Validity of every dimension except `distance` and `limit`. -/
def others_ok (p : CheckParams) : Bool :=
  animal_types_ok p && size_ok p && gender_ok p && age_ok p &&
  coat_ok p && status_ok p && sort_ok p && location_ok p

/-- Validity of every dimension at once. -/
def params_ok (p : CheckParams) : Bool :=
  others_ok p && distance_ok p && limit_ok p

/-- Substring containment on strings (used to state that an error message
names a value). -/
def containsStr (s pat : String) : Prop := pat.data <:+: s.data

instance (s pat : String) : Decidable (containsStr s pat) :=
  List.decidableInfix pat.data s.data

/-- Python values that can appear in the wire-parameter dict built by
`_parameters`. -/
inductive PVal where
  | str (s : String)
  | int (n : Int)
  | strOrList (x : StrOrList)
deriving DecidableEq

/-- The full argument record of `_parameters` (every parameter defaults to
`None` in the source).  `organization_id` is a string identifier on the wire;
`animal_id` is an integer. -/
structure PArgs where
  animal : Option String
  breed : Option String
  size : Option StrOrList
  gender : Option StrOrList
  color : Option String
  coat : Option StrOrList
  animal_type : Option String
  location : Option String
  distance : Option Int
  state : Option String
  country : Option String
  query : Option String
  sort : Option String
  name : Option String
  age : Option StrOrList
  animal_id : Option Int
  organization_id : Option String
  status : Option String
  results_per_page : Option Int
  page : Option Int
deriving DecidableEq

/-- A `PArgs` value with every argument unset. -/
def noPArgs : PArgs :=
  { animal := none, breed := none, size := none, gender := none, color := none,
    coat := none, animal_type := none, location := none, distance := none,
    state := none, country := none, query := none, sort := none, name := none,
    age := none, animal_id := none, organization_id := none, status := none,
    results_per_page := none, page := none }

/-- The entry a dict comprehension keeps for one key: nothing when the value
is `None`, otherwise the key/value pair. -/
def optEntry (k : String) : Option PVal → List (String × PVal)
  | none => []
  | some v => [(k, v)]

/-- The `args` dict of `_parameters` after the `if val is not None`
comprehension, as an ordered association list in the source's key order. -/
def _parameters_args (a : PArgs) : List (String × PVal) :=
  optEntry "animal" (a.animal.map .str) ++
  optEntry "breed" (a.breed.map .str) ++
  optEntry "size" (a.size.map .strOrList) ++
  optEntry "gender" (a.gender.map .strOrList) ++
  optEntry "age" (a.age.map .strOrList) ++
  optEntry "color" (a.color.map .str) ++
  optEntry "coat" (a.coat.map .strOrList) ++
  optEntry "animal_type" (a.animal_type.map .str) ++
  optEntry "location" (a.location.map .str) ++
  optEntry "distance" (a.distance.map .int) ++
  optEntry "state" (a.state.map .str) ++
  optEntry "country" (a.country.map .str) ++
  optEntry "query" (a.query.map .str) ++
  optEntry "sort" (a.sort.map .str) ++
  optEntry "name" (a.name.map .str) ++
  optEntry "animal_id" (a.animal_id.map .int) ++
  optEntry "organization_id" (a.organization_id.map .str) ++
  optEntry "status" (a.status.map .str) ++
  optEntry "limit" (a.results_per_page.map .int) ++
  optEntry "page" (a.page.map .int)

/-- The argument translation `_parameters` performs when it calls
`_check_parameters` (`animal_types=animal_type, ..., limit=results_per_page`). -/
def toCheck (a : PArgs) : CheckParams :=
  { animal_types := a.animal_type, size := a.size, gender := a.gender,
    age := a.age, coat := a.coat, status := a.status, location := a.location,
    distance := a.distance, sort := a.sort, limit := a.results_per_page }

/-- The `_parameters` function: validates first (a `ValueError` from
`_check_parameters` propagates as `.error`), then returns the dict of
non-`None` arguments under their wire keys. -/
def _parameters (a : PArgs) : Except String (List (String × PVal)) :=
  match _check_parameters (toCheck a) with
  | some e => .error e
  | none => .ok (_parameters_args a)

/-- One fetched page of search results: the item list of the response plus
the `pagination.total_pages` field of the response envelope. -/
structure Page (α : Type) where
  items : List α
  total_pages : Nat
deriving DecidableEq

/-- A request issued against the remote API, with identifier type `ι`:
either a direct single-entity fetch or a search fetch whose `page` query
parameter is `none` when the request carries no page parameter. -/
inductive Req (ι : Type) where
  | byId (id : ι)
  | search (page : Option Nat)
deriving DecidableEq

/-- An identifier argument: a single identifier or a list/tuple of them. -/
inductive IdArg (ι : Type) where
  | one (id : ι)
  | many (ids : List ι)
deriving DecidableEq

/-- The record payload of `animals`/`organizations`: a single record when a
single identifier was fetched, otherwise a list of records. -/
inductive RecordsOut (α : Type) where
  | single (a : α)
  | many (l : List α)
deriving DecidableEq

/-- Python's `range(2, pages)`. -/
def pageRange (pages : Nat) : List Nat := List.range' 2 (pages - 2)

/-- The filter arguments of `Petfinder.animals` that are forwarded to
`_parameters` (`results_per_page` defaults to `20` in the source signature;
the caller of the embedding supplies the value explicitly). -/
structure AnimalsArgs where
  animal_type : Option String
  breed : Option String
  size : Option StrOrList
  gender : Option StrOrList
  age : Option StrOrList
  color : Option String
  coat : Option StrOrList
  status : Option String
  name : Option String
  organization_id : Option String
  location : Option String
  distance : Option Int
  sort : Option String
  results_per_page : Option Int
deriving DecidableEq

/-- An `AnimalsArgs` value with every filter unset. -/
def noAnimalsArgs : AnimalsArgs :=
  { animal_type := none, breed := none, size := none, gender := none,
    age := none, color := none, coat := none, status := none, name := none,
    organization_id := none, location := none, distance := none, sort := none,
    results_per_page := none }

/-- The `_parameters` call made by `Petfinder.animals` (note `animal`,
`state`, `country`, `query`, `animal_id` and `page` are left at `None`). -/
def animalsPArgs (a : AnimalsArgs) : PArgs :=
  { noPArgs with
    animal_type := a.animal_type, breed := a.breed, size := a.size,
    gender := a.gender, age := a.age, color := a.color, coat := a.coat,
    status := a.status, name := a.name, organization_id := a.organization_id,
    location := a.location, distance := a.distance, sort := a.sort,
    results_per_page := a.results_per_page }

/-- The filter arguments of `Petfinder.organizations` that are forwarded to
`_parameters`. -/
structure OrgArgs where
  name : Option String
  location : Option String
  distance : Option Int
  state : Option String
  country : Option String
  query : Option String
  sort : Option String
  results_per_page : Option Int
deriving DecidableEq

/-- An `OrgArgs` value with every filter unset. -/
def noOrgArgs : OrgArgs :=
  { name := none, location := none, distance := none, state := none,
    country := none, query := none, sort := none, results_per_page := none }

/-- The `_parameters` call made by `Petfinder.organizations`. -/
def orgsPArgs (a : OrgArgs) : PArgs :=
  { noPArgs with
    name := a.name, location := a.location, distance := a.distance,
    state := a.state, country := a.country, query := a.query, sort := a.sort,
    results_per_page := a.results_per_page }

/-- The search-with-`pages` aggregation shared verbatim by `animals` and
`organizations`: increment the requested count, fetch page 1, read
`total_pages` from the envelope, clamp (setting the boundary-notice flag)
when the incremented count exceeds it, then fetch `range(2, pages)` and
append each page's items in order.  Returns the aggregated items, the
ordered list of page numbers fetched, and the `max_page_warning` flag. -/
def paginate {α : Type} (fetchSearch : Option Nat → Page α) (n : Nat) :
    List α × List Nat × Bool :=
  let pages := n + 1
  let r1 := fetchSearch (some 1)
  let max_pages := r1.total_pages
  let warning := decide (pages > max_pages)
  let pages := if pages > max_pages then max_pages else pages
  let rest := pageRange pages
  (r1.items ++ rest.flatMap (fun k => (fetchSearch (some k)).items),
   1 :: rest,
   warning)

/-- The `Petfinder.animals` method.  `fetchById id` models the direct GET of
`animals/{id}` (its decoded `animal` field); `fetchSearch page` models a GET
of `animals/` with the assembled parameters, which are fixed across one call,
so only the `page` query parameter is made explicit.  The result is the
returned payload (or the propagated `ValueError` message), the ordered log of
requests issued, and the `max_page_warning` flag. -/
def animals {α : Type} (fetchById : Int → α) (fetchSearch : Option Nat → Page α)
    (animal_id : Option (IdArg Int)) (args : AnimalsArgs) (pages : Option Nat) :
    Except String (RecordsOut α) × List (Req Int) × Bool :=
  match animal_id with
  | some (.one i) => (.ok (.single (fetchById i)), [.byId i], false)
  | some (.many ids) =>
    (.ok (.many (ids.map fetchById)), ids.map Req.byId, false)
  | none =>
    match _parameters (animalsPArgs args) with
    | .error e => (.error e, [], false)
    | .ok _ =>
      match pages with
      | none => (.ok (.many (fetchSearch none).items), [.search none], false)
      | some n =>
        let (items, fetched, warning) := paginate fetchSearch n
        (.ok (.many items), fetched.map (fun k => Req.search (some k)), warning)

/-- The `Petfinder.organizations` method, mirroring `animals` with string
identifiers and the organization filter set. -/
def organizations {α : Type} (fetchById : String → α)
    (fetchSearch : Option Nat → Page α) (organization_id : Option (IdArg String))
    (args : OrgArgs) (pages : Option Nat) :
    Except String (RecordsOut α) × List (Req String) × Bool :=
  match organization_id with
  | some (.one i) => (.ok (.single (fetchById i)), [.byId i], false)
  | some (.many ids) =>
    (.ok (.many (ids.map fetchById)), ids.map Req.byId, false)
  | none =>
    match _parameters (orgsPArgs args) with
    | .error e => (.error e, [], false)
    | .ok _ =>
      match pages with
      | none => (.ok (.many (fetchSearch none).items), [.search none], false)
      | some n =>
        let (items, fetched, warning) := paginate fetchSearch n
        (.ok (.many items), fetched.map (fun k => Req.search (some k)), warning)

/-- The wire-level keys that can appear in the mapping built by
`_parameters`, in the source's dict order. -/
def wireKeys : List String :=
  ["animal", "breed", "size", "gender", "age", "color", "coat", "animal_type",
   "location", "distance", "state", "country", "query", "sort", "name",
   "animal_id", "organization_id", "status", "limit", "page"]

/-- A concrete two-page search server used to evaluate the aggregator at the
pagination boundary: page 1 holds item `11`, page 2 holds item `22`, and the
envelope reports `total_pages = 2`. -/
def demoServer2 : Option Nat → Page Nat
  | some 1 => { items := [11], total_pages := 2 }
  | some 2 => { items := [22], total_pages := 2 }
  | _ => { items := [99], total_pages := 2 }

theorem infixAppendLeft {l r : List Char} (x : List Char) (h : l <:+: r) :
    l <:+: x ++ r := by
  obtain ⟨u, v, huv⟩ := h
  exact ⟨x ++ u, v, by rw [← huv]; simp⟩

theorem infixAppendRight {l r : List Char} (x : List Char) (h : l <:+: r) :
    l <:+: r ++ x := by
  obtain ⟨u, v, huv⟩ := h
  exact ⟨u, v ++ x, by rw [← huv]; simp⟩

theorem containsStr_refl (s : String) : containsStr s s := ⟨[], [], by simp⟩

theorem containsStr_appendLeft {s pat : String} (x : String) (h : containsStr s pat) :
    containsStr (x ++ s) pat := by
  unfold containsStr at h ⊢
  rw [String.data_append]
  exact infixAppendLeft x.data h

theorem containsStr_appendRight {s pat : String} (x : String) (h : containsStr s pat) :
    containsStr (s ++ x) pat := by
  unfold containsStr at h ⊢
  rw [String.data_append]
  exact infixAppendRight x.data h

theorem containsStr_trans {a b c : String} (h₁ : containsStr a b) (h₂ : containsStr b c) :
    containsStr a c :=
  List.IsInfix.trans h₂ h₁

theorem containsStr_pyJoin {a : String} {l : List String} (h : a ∈ l) :
    containsStr (pyJoin l) a := by
  induction l with
  | nil => cases h
  | cons s t ih =>
    cases t with
    | nil =>
      rw [List.mem_singleton] at h
      subst h
      exact containsStr_refl a
    | cons b r =>
      rcases List.mem_cons.mp h with rfl | hmem
      · exact containsStr_appendRight _ (containsStr_appendRight _ (containsStr_refl a))
      · exact containsStr_appendLeft _ (ih hmem)

theorem containsStr_pyStr (a : String) : containsStr (pyStr a) a :=
  containsStr_appendRight _ (containsStr_appendLeft _ (containsStr_refl a))

theorem containsStr_pySet {a : String} {l : List String} (h : a ∈ l) :
    containsStr (pySet l) a :=
  containsStr_appendRight _ (containsStr_appendLeft _
    (containsStr_trans (containsStr_pyJoin (List.mem_map.mpr ⟨a, h, rfl⟩))
      (containsStr_pyStr a)))

theorem containsStr_pyTuple {a : String} {l : List String} (h : a ∈ l) :
    containsStr (pyTuple l) a :=
  containsStr_appendRight _ (containsStr_appendLeft _
    (containsStr_trans (containsStr_pyJoin (List.mem_map.mpr ⟨a, h, rfl⟩))
      (containsStr_pyStr a)))

theorem containsStr_scalarPart (pre mid post v : String) :
    containsStr (pre ++ v ++ mid ++ post) v :=
  containsStr_appendRight _ (containsStr_appendRight _
    (containsStr_appendLeft _ (containsStr_refl v)))

theorem containsStr_setPart {l : List String} {v : String} (pre mid post : String)
    (h : v ∈ l) :
    containsStr (pre ++ pySet l ++ mid ++ post) v :=
  containsStr_appendRight _ (containsStr_appendRight _
    (containsStr_appendLeft _ (containsStr_pySet h)))

theorem containsStr_tuplePart {l : List String} {v : String} (pre : String)
    (h : v ∈ l) :
    containsStr (pre ++ pyTuple l) v :=
  containsStr_appendLeft _ (containsStr_pyTuple h)

theorem pyDiff_eq_nil_iff {xs valid : List String} :
    pyDiff xs valid = [] ↔ xs.all (fun v => valid.contains v) = true := by
  simp [pyDiff, List.dedup_eq_nil, List.filter_eq_nil_iff, List.all_eq_true]

theorem animal_types_error_none (p : CheckParams) :
    animal_types_error p = none ↔ animal_types_ok p = true := by
  cases h : p.animal_types with
  | none => simp [animal_types_error, animal_types_ok, h]
  | some t =>
    by_cases hc : _animal_types.contains t = true <;>
      simp [animal_types_error, animal_types_ok, h, hc]

theorem size_error_none (p : CheckParams) :
    size_error p = none ↔ size_ok p = true := by
  cases h : p.size with
  | none => simp [size_error, size_ok, h]
  | some x =>
    simp [size_error, size_ok, h, List.isEmpty_iff, pyDiff_eq_nil_iff]

theorem gender_error_none (p : CheckParams) :
    gender_error p = none ↔ gender_ok p = true := by
  cases h : p.gender with
  | none => simp [gender_error, gender_ok, h]
  | some x =>
    simp [gender_error, gender_ok, h, List.isEmpty_iff, pyDiff_eq_nil_iff]

theorem age_error_none (p : CheckParams) :
    age_error p = none ↔ age_ok p = true := by
  cases h : p.age with
  | none => simp [age_error, age_ok, h]
  | some x =>
    simp [age_error, age_ok, h, List.isEmpty_iff, pyDiff_eq_nil_iff]

theorem coat_error_none (p : CheckParams) :
    coat_error p = none ↔ coat_ok p = true := by
  cases h : p.coat with
  | none => simp [coat_error, coat_ok, h]
  | some x =>
    simp [coat_error, coat_ok, h, List.isEmpty_iff, pyDiff_eq_nil_iff]

theorem status_error_none (p : CheckParams) :
    status_error p = none ↔ status_ok p = true := by
  cases h : p.status with
  | none => simp [status_error, status_ok, h]
  | some s =>
    by_cases hc : _status.contains s = true <;>
      simp [status_error, status_ok, h, hc]

theorem sort_error_none (p : CheckParams) :
    sort_error p = none ↔ sort_ok p = true := by
  cases h : p.sort with
  | none => simp [sort_error, sort_ok, h]
  | some s =>
    by_cases hc : _sort.contains s = true <;>
      simp [sort_error, sort_ok, h, hc]

theorem location_error_none (p : CheckParams) :
    location_error p = none ↔ location_ok p = true := by
  cases h : p.location with
  | none => simp [location_error, location_ok, h]
  | some s =>
    by_cases hc : _location.contains s = true <;>
      simp [location_error, location_ok, h, hc]

theorem distance_error_none (p : CheckParams) :
    distance_error p = none ↔ distance_ok p = true := by
  cases h : p.distance with
  | none => simp [distance_error, distance_ok, h]
  | some d =>
    by_cases hd : d > 500 <;> simp [distance_error, distance_ok, h, hd] <;> omega

theorem limit_error_none (p : CheckParams) :
    limit_error p = none ↔ limit_ok p = true := by
  cases h : p.limit with
  | none => simp [limit_error, limit_ok, h]
  | some n =>
    by_cases hn : n > 100 <;> simp [limit_error, limit_ok, h, hn] <;> omega

theorem dictEntry_eq_nil {k : String} {o : Option String} :
    dictEntry k o = [] ↔ o = none := by
  cases o <;> simp [dictEntry]

theorem incorrect_values_eq_nil_iff (p : CheckParams) :
    incorrect_values p = [] ↔ params_ok p = true := by
  simp only [incorrect_values, List.append_eq_nil, dictEntry_eq_nil,
    animal_types_error_none, size_error_none, gender_error_none, age_error_none,
    coat_error_none, status_error_none, sort_error_none, location_error_none,
    distance_error_none, limit_error_none, params_ok, others_ok, Bool.and_eq_true]

theorem check_parameters_none_iff (p : CheckParams) :
    _check_parameters p = none ↔ params_ok p = true := by
  rw [← incorrect_values_eq_nil_iff]
  by_cases h : incorrect_values p = []
  · simp [_check_parameters, h]
  · simp [_check_parameters, List.isEmpty_iff, h]

theorem strFoldlAppend (t : List String) (a : String) :
    t.foldl (fun r s => r ++ s) a = a ++ String.join t := by
  induction t generalizing a with
  | nil =>
    show a = a ++ String.join []
    rw [show String.join [] = "" from rfl, String.append_empty]
  | cons s r ih =>
    show List.foldl (fun r s => r ++ s) (a ++ s) r = a ++ String.join (s :: r)
    have hj : String.join (s :: r) = List.foldl (fun r s => r ++ s) s r := by
      show List.foldl (fun r s => r ++ s) ("" ++ s) r
          = List.foldl (fun r s => r ++ s) s r
      rw [String.empty_append]
    rw [ih, hj, ih s, String.append_assoc]

theorem strJoin_cons (s : String) (t : List String) :
    String.join (s :: t) = s ++ String.join t := by
  show List.foldl (fun r s => r ++ s) ("" ++ s) t = s ++ String.join t
  rw [String.empty_append, strFoldlAppend]

theorem foldl_errors_eq (l : List (String × String)) (a : String) :
    l.foldl (fun errors kv => errors ++ kv.2 ++ "\n") a
      = a ++ String.join (l.map (fun kv => kv.2 ++ "\n")) := by
  induction l generalizing a with
  | nil =>
    simp only [List.foldl_nil, List.map_nil]
    rw [show String.join [] = "" from rfl, String.append_empty]
  | cons kv t ih =>
    rw [List.foldl_cons, ih, List.map_cons, strJoin_cons]
    simp only [String.append_assoc]

theorem lookup_optEntry_ne {k k' : String} (o : Option PVal)
    (rest : List (String × PVal)) (h : (k == k') = false) :
    List.lookup k (optEntry k' o ++ rest) = List.lookup k rest := by
  cases o <;> simp [optEntry, List.lookup, h]

theorem lookup_optEntry_ne' {k k' : String} (o : Option PVal)
    (h : (k == k') = false) :
    List.lookup k (optEntry k' o) = none := by
  cases o <;> simp [optEntry, List.lookup, h]

theorem lookup_optEntry_eq {k : String} (o : Option PVal)
    (rest : List (String × PVal)) (hrest : List.lookup k rest = none) :
    List.lookup k (optEntry k o ++ rest) = o := by
  cases o <;> simp [optEntry, List.lookup, hrest]

theorem lookup_optEntry_self {k : String} (o : Option PVal) :
    List.lookup k (optEntry k o) = o := by
  cases o <;> simp [optEntry, List.lookup]

theorem optEntry_fst_sublist (k : String) (o : Option PVal) :
    ((optEntry k o).map Prod.fst).Sublist [k] := by
  cases o <;> simp [optEntry]

/-- C3 (amended): the validator raises exactly when some dimension has a
violation, and then raises a single `ValueError` whose message concatenates
the per-dimension messages, each terminated by a newline, in the fixed check
order (animal type, size, gender, age, coat, status, sort, location,
distance, limit).  Each enumerated dimension's message names the offending
values and lists the full accepted set; the distance and limit messages are
fixed bound statements that name neither the offending value nor a set. -/
theorem check_parameters_aggregated_error (p : CheckParams) :
    (_check_parameters p = none ↔ params_ok p = true) ∧
    (params_ok p = false →
      _check_parameters p
        = some (String.join ((incorrect_values p).map (fun kv => kv.2 ++ "\n")))) ∧
    (∀ t m, p.animal_types = some t → animal_types_error p = some m →
      containsStr m t ∧ ∀ v ∈ _animal_types, containsStr m v) ∧
    (∀ m, size_error p = some m →
      (∀ v ∈ size_offending p, containsStr m v) ∧ ∀ v ∈ _sizes, containsStr m v) ∧
    (∀ m, gender_error p = some m →
      (∀ v ∈ gender_offending p, containsStr m v) ∧ ∀ v ∈ _genders, containsStr m v) ∧
    (∀ m, age_error p = some m →
      (∀ v ∈ age_offending p, containsStr m v) ∧ ∀ v ∈ _ages, containsStr m v) ∧
    (∀ m, coat_error p = some m →
      (∀ v ∈ coat_offending p, containsStr m v) ∧ ∀ v ∈ _coats, containsStr m v) ∧
    (∀ s m, p.status = some s → status_error p = some m →
      containsStr m s ∧ ∀ v ∈ _status, containsStr m v) ∧
    (∀ s m, p.sort = some s → sort_error p = some m →
      containsStr m s ∧ ∀ v ∈ _sort, containsStr m v) ∧
    (∀ s m, p.location = some s → location_error p = some m →
      containsStr m s ∧ ∀ v ∈ _location, containsStr m v) ∧
    (∀ m, distance_error p = some m → m = distance_message) ∧
    (∀ m, limit_error p = some m → m = limit_message) := by
  refine ⟨check_parameters_none_iff p, ?_, ?_, ?_, ?_, ?_, ?_, ?_, ?_, ?_, ?_, ?_⟩
  · intro hbad
    have hne : incorrect_values p ≠ [] := fun hnil => by
      rw [(incorrect_values_eq_nil_iff p).mp hnil] at hbad
      cases hbad
    simp only [_check_parameters]
    rw [if_neg (by simpa [List.isEmpty_iff] using hne), foldl_errors_eq,
      String.empty_append]
  · intro t m ht hm
    simp only [animal_types_error, ht] at hm
    by_cases hc : _animal_types.contains t = true
    · rw [if_pos hc] at hm; cases hm
    · rw [if_neg hc] at hm
      injection hm with hm
      subst hm
      exact ⟨containsStr_scalarPart _ _ _ t, fun v hv => containsStr_tuplePart _ hv⟩
  · intro m hm
    cases hx : p.size with
    | none =>
      simp only [size_error, hx] at hm
      cases hm
    | some x =>
      simp only [size_error, hx] at hm
      by_cases hd : (pyDiff (normalizeArg x) _sizes).isEmpty = true
      · rw [if_pos hd] at hm; cases hm
      · rw [if_neg hd] at hm
        injection hm with hm
        subst hm
        refine ⟨fun v hv => ?_, fun v hv => containsStr_tuplePart _ hv⟩
        simp only [size_offending, hx] at hv
        exact containsStr_setPart _ _ _ hv
  · intro m hm
    cases hx : p.gender with
    | none =>
      simp only [gender_error, hx] at hm
      cases hm
    | some x =>
      simp only [gender_error, hx] at hm
      by_cases hd : (pyDiff (normalizeArg x) _genders).isEmpty = true
      · rw [if_pos hd] at hm; cases hm
      · rw [if_neg hd] at hm
        injection hm with hm
        subst hm
        refine ⟨fun v hv => ?_, fun v hv => containsStr_tuplePart _ hv⟩
        simp only [gender_offending, hx] at hv
        exact containsStr_setPart _ _ _ hv
  · intro m hm
    cases hx : p.age with
    | none =>
      simp only [age_error, hx] at hm
      cases hm
    | some x =>
      simp only [age_error, hx] at hm
      by_cases hd : (pyDiff (normalizeArg x) _ages).isEmpty = true
      · rw [if_pos hd] at hm; cases hm
      · rw [if_neg hd] at hm
        injection hm with hm
        subst hm
        refine ⟨fun v hv => ?_, fun v hv => containsStr_tuplePart _ hv⟩
        simp only [age_offending, hx] at hv
        exact containsStr_setPart _ _ _ hv
  · intro m hm
    cases hx : p.coat with
    | none =>
      simp only [coat_error, hx] at hm
      cases hm
    | some x =>
      simp only [coat_error, hx] at hm
      by_cases hd : (pyDiff (normalizeArg x) _coats).isEmpty = true
      · rw [if_pos hd] at hm; cases hm
      · rw [if_neg hd] at hm
        injection hm with hm
        subst hm
        refine ⟨fun v hv => ?_, fun v hv => containsStr_tuplePart _ hv⟩
        simp only [coat_offending, hx] at hv
        exact containsStr_setPart _ _ _ hv
  · intro s m hs hm
    simp only [status_error, hs] at hm
    by_cases hc : _status.contains s = true
    · rw [if_pos hc] at hm; cases hm
    · rw [if_neg hc] at hm
      injection hm with hm
      subst hm
      exact ⟨containsStr_scalarPart _ _ _ s, fun v hv => containsStr_tuplePart _ hv⟩
  · intro s m hs hm
    simp only [sort_error, hs] at hm
    by_cases hc : _sort.contains s = true
    · rw [if_pos hc] at hm; cases hm
    · rw [if_neg hc] at hm
      injection hm with hm
      subst hm
      exact ⟨containsStr_scalarPart _ _ _ s, fun v hv => containsStr_tuplePart _ hv⟩
  · intro s m hs hm
    simp only [location_error, hs] at hm
    by_cases hc : _location.contains s = true
    · rw [if_pos hc] at hm; cases hm
    · rw [if_neg hc] at hm
      injection hm with hm
      subst hm
      exact ⟨containsStr_scalarPart _ _ _ s, fun v hv => containsStr_tuplePart _ hv⟩
  · intro m hm
    cases hd : p.distance with
    | none =>
      simp only [distance_error, hd] at hm
      cases hm
    | some d =>
      simp only [distance_error, hd] at hm
      by_cases hgt : d > 500
      · rw [if_pos hgt] at hm
        injection hm with hm
        exact hm.symm
      · rw [if_neg hgt] at hm; cases hm
  · intro m hm
    cases hn : p.limit with
    | none =>
      simp only [limit_error, hn] at hm
      cases hm
    | some n =>
      simp only [limit_error, hn] at hm
      by_cases hgt : n > 100
      · rw [if_pos hgt] at hm
        injection hm with hm
        exact hm.symm
      · rw [if_neg hgt] at hm; cases hm

/-- Witness for the C3 theorem at the spec's scenario A, `size =
["small", "huge"]`: validation fails, the raised message is the
newline-terminated concatenation of the per-dimension messages, and the size
message names the offending value `huge`. -/
theorem check_parameters_aggregated_error_witness :
    params_ok { noParams with size := some (.collection ["small", "huge"]) } = false ∧
    _check_parameters { noParams with size := some (.collection ["small", "huge"]) }
      = some (String.join
          ((incorrect_values { noParams with size := some (.collection ["small", "huge"]) }).map
            (fun kv => kv.2 ++ "\n"))) ∧
    containsStr (size_message ["huge"]) "huge" ∧
    containsStr (size_message ["huge"]) "xlarge" := by
  have h := check_parameters_aggregated_error
    { noParams with size := some (.collection ["small", "huge"]) }
  refine ⟨by decide, h.2.1 (by decide), ?_, ?_⟩
  · exact ((h.2.2.2.1 (size_message ["huge"]) (by decide)).1 "huge" (by decide))
  · exact ((h.2.2.2.1 (size_message ["huge"]) (by decide)).2 "xlarge" (by decide))

/-- Counterexample to C3 as stated: with only `distance = 501` supplied the
validator does fail with the aggregated newline-terminated message, but the
distance dimension's message is the fixed string
`distance cannot be greater than 500`: it does not name the offending value
`501`, so not every per-dimension message names the dimension's offending
values and lists an accepted set. -/
theorem distance_message_omits_value :
    _check_parameters { noParams with distance := some 501 }
      = some (distance_message ++ "\n") ∧
    distance_error { noParams with distance := some 501 } = some distance_message ∧
    ¬ containsStr distance_message "501" :=
  ⟨by decide, by decide, by decide⟩

/-- C4: with every other supplied dimension valid, acceptance is decided by
the integer bounds alone (`distance ≤ 500`, `limit ≤ 100`); concretely,
distance 501 fails while 500 succeeds, and limit 101 fails while 100
succeeds. -/
theorem distance_limit_bounds (p : CheckParams) (h : others_ok p = true) :
    (_check_parameters p = none ↔
      distance_ok p = true ∧ limit_ok p = true) ∧
    (distance_ok p = true ↔ ∀ d ∈ p.distance, d ≤ 500) ∧
    (limit_ok p = true ↔ ∀ n ∈ p.limit, n ≤ 100) ∧
    _check_parameters { noParams with distance := some 501 }
      = some (distance_message ++ "\n") ∧
    _check_parameters { noParams with distance := some 500 } = none ∧
    _check_parameters { noParams with limit := some 101 }
      = some (limit_message ++ "\n") ∧
    _check_parameters { noParams with limit := some 100 } = none := by
  refine ⟨?_, ?_, ?_, by decide, by decide, by decide, by decide⟩
  · rw [check_parameters_none_iff]
    simp [params_ok, h]
  · cases hd : p.distance <;> simp [distance_ok, hd]
  · cases hn : p.limit <;> simp [limit_ok, hn]

/-- Witness for the C4 theorem at `distance = 501` with every other
dimension unset: the hypothesis holds and validation cannot succeed. -/
theorem distance_limit_bounds_witness :
    others_ok { noParams with distance := some 501 } = true ∧
    ¬ _check_parameters { noParams with distance := some 501 } = none := by
  have h := distance_limit_bounds { noParams with distance := some 501 } (by decide)
  refine ⟨by decide, fun hnone => ?_⟩
  have := (h.1.mp hnone).1
  rw [h.2.1] at this
  exact absurd (this 501 rfl) (by decide)

/-- C5: for each of the multi-valued dimensions (size, gender, age, coat),
validating a scalar string is exactly the same as validating the one-element
collection holding that string: the source normalizes the scalar to `[v]`
before the set-difference comparison. -/
theorem scalar_singleton_equiv (p : CheckParams) (v : String) :
    _check_parameters { p with size := some (.scalar v) }
        = _check_parameters { p with size := some (.collection [v]) } ∧
    _check_parameters { p with gender := some (.scalar v) }
        = _check_parameters { p with gender := some (.collection [v]) } ∧
    _check_parameters { p with age := some (.scalar v) }
        = _check_parameters { p with age := some (.collection [v]) } ∧
    _check_parameters { p with coat := some (.scalar v) }
        = _check_parameters { p with coat := some (.collection [v]) } :=
  ⟨rfl, rfl, rfl, rfl⟩

/-- C9: a supplied location value passes the location check exactly when it
is one of the three literal format tags `city,state`, `latitude,longitude`,
`postal code`; any other string (such as an actual postal code or
city/state) produces the location validation error.  The check compares the
string against the format-tag tuple, not against location content. -/
theorem location_checks_format_tag (p : CheckParams) (s : String)
    (h : p.location = some s) :
    (location_error p = none ↔
      (s = "city,state" ∨ s = "latitude,longitude" ∨ s = "postal code")) ∧
    (s ≠ "city,state" → s ≠ "latitude,longitude" → s ≠ "postal code" →
      location_error p = some (location_message s)) ∧
    (_check_parameters { noParams with location := some s } = none ↔
      (s = "city,state" ∨ s = "latitude,longitude" ∨ s = "postal code")) := by
  have hmem : _location.contains s = true ↔
      (s = "city,state" ∨ s = "latitude,longitude" ∨ s = "postal code") := by
    simp [_location]
  refine ⟨?_, ?_, ?_⟩
  · rw [← hmem, location_error_none p]
    simp [location_ok, h]
  · intro h1 h2 h3
    have hns : s ∉ _location := by simp [_location, h1, h2, h3]
    simp [location_error, h, hns]
  · rw [check_parameters_none_iff, ← hmem]
    simp [params_ok, others_ok, animal_types_ok, size_ok, gender_ok, age_ok,
      coat_ok, status_ok, sort_ok, location_ok, distance_ok, limit_ok, noParams]

/-- Witness for the C9 theorem at the real postal code `90210`: the check
rejects it because it is not one of the three format tags. -/
theorem location_checks_format_tag_witness :
    location_error { noParams with location := some "90210" }
      = some (location_message "90210") ∧
    ¬ _check_parameters { noParams with location := some "90210" } = none := by
  have h := location_checks_format_tag
    { noParams with location := some "90210" } "90210" rfl
  refine ⟨h.2.1 (by decide) (by decide) (by decide), fun hnone => ?_⟩
  exact absurd (h.2.2.mp hnone) (by decide)

/-- C6: when validation passes, the assembler returns the mapping that
contains exactly the dimensions whose value is non-null, keyed by the
wire-level field names: looking up each wire key yields exactly the
corresponding user-facing argument (in particular `results_per_page` appears
under the wire key `limit`), and no key outside the wire-key table occurs. -/
theorem parameters_wire_mapping (a : PArgs)
    (h : _check_parameters (toCheck a) = none) :
    _parameters a = .ok (_parameters_args a) ∧
    List.lookup "animal" (_parameters_args a) = a.animal.map PVal.str ∧
    List.lookup "breed" (_parameters_args a) = a.breed.map PVal.str ∧
    List.lookup "size" (_parameters_args a) = a.size.map PVal.strOrList ∧
    List.lookup "gender" (_parameters_args a) = a.gender.map PVal.strOrList ∧
    List.lookup "age" (_parameters_args a) = a.age.map PVal.strOrList ∧
    List.lookup "color" (_parameters_args a) = a.color.map PVal.str ∧
    List.lookup "coat" (_parameters_args a) = a.coat.map PVal.strOrList ∧
    List.lookup "animal_type" (_parameters_args a) = a.animal_type.map PVal.str ∧
    List.lookup "location" (_parameters_args a) = a.location.map PVal.str ∧
    List.lookup "distance" (_parameters_args a) = a.distance.map PVal.int ∧
    List.lookup "state" (_parameters_args a) = a.state.map PVal.str ∧
    List.lookup "country" (_parameters_args a) = a.country.map PVal.str ∧
    List.lookup "query" (_parameters_args a) = a.query.map PVal.str ∧
    List.lookup "sort" (_parameters_args a) = a.sort.map PVal.str ∧
    List.lookup "name" (_parameters_args a) = a.name.map PVal.str ∧
    List.lookup "animal_id" (_parameters_args a) = a.animal_id.map PVal.int ∧
    List.lookup "organization_id" (_parameters_args a) = a.organization_id.map PVal.str ∧
    List.lookup "status" (_parameters_args a) = a.status.map PVal.str ∧
    List.lookup "limit" (_parameters_args a) = a.results_per_page.map PVal.int ∧
    List.lookup "page" (_parameters_args a) = a.page.map PVal.int ∧
    ((_parameters_args a).map Prod.fst).Sublist wireKeys := by
  refine ⟨by simp [_parameters, h], ?_, ?_, ?_, ?_, ?_, ?_, ?_, ?_, ?_, ?_, ?_, ?_, ?_, ?_, ?_, ?_, ?_, ?_, ?_, ?_, ?_⟩
  · simp only [_parameters_args, List.append_assoc]
    rw [lookup_optEntry_eq]
    rw [lookup_optEntry_ne _ _ (by decide),
      lookup_optEntry_ne _ _ (by decide),
      lookup_optEntry_ne _ _ (by decide),
      lookup_optEntry_ne _ _ (by decide),
      lookup_optEntry_ne _ _ (by decide),
      lookup_optEntry_ne _ _ (by decide),
      lookup_optEntry_ne _ _ (by decide),
      lookup_optEntry_ne _ _ (by decide),
      lookup_optEntry_ne _ _ (by decide),
      lookup_optEntry_ne _ _ (by decide),
      lookup_optEntry_ne _ _ (by decide),
      lookup_optEntry_ne _ _ (by decide),
      lookup_optEntry_ne _ _ (by decide),
      lookup_optEntry_ne _ _ (by decide),
      lookup_optEntry_ne _ _ (by decide),
      lookup_optEntry_ne _ _ (by decide),
      lookup_optEntry_ne _ _ (by decide),
      lookup_optEntry_ne _ _ (by decide),
      lookup_optEntry_ne' _ (by decide)]
  · simp only [_parameters_args, List.append_assoc]
    rw [lookup_optEntry_ne _ _ (by decide),
      lookup_optEntry_eq]
    rw [lookup_optEntry_ne _ _ (by decide),
      lookup_optEntry_ne _ _ (by decide),
      lookup_optEntry_ne _ _ (by decide),
      lookup_optEntry_ne _ _ (by decide),
      lookup_optEntry_ne _ _ (by decide),
      lookup_optEntry_ne _ _ (by decide),
      lookup_optEntry_ne _ _ (by decide),
      lookup_optEntry_ne _ _ (by decide),
      lookup_optEntry_ne _ _ (by decide),
      lookup_optEntry_ne _ _ (by decide),
      lookup_optEntry_ne _ _ (by decide),
      lookup_optEntry_ne _ _ (by decide),
      lookup_optEntry_ne _ _ (by decide),
      lookup_optEntry_ne _ _ (by decide),
      lookup_optEntry_ne _ _ (by decide),
      lookup_optEntry_ne _ _ (by decide),
      lookup_optEntry_ne _ _ (by decide),
      lookup_optEntry_ne' _ (by decide)]
  · simp only [_parameters_args, List.append_assoc]
    rw [lookup_optEntry_ne _ _ (by decide),
      lookup_optEntry_ne _ _ (by decide),
      lookup_optEntry_eq]
    rw [lookup_optEntry_ne _ _ (by decide),
      lookup_optEntry_ne _ _ (by decide),
      lookup_optEntry_ne _ _ (by decide),
      lookup_optEntry_ne _ _ (by decide),
      lookup_optEntry_ne _ _ (by decide),
      lookup_optEntry_ne _ _ (by decide),
      lookup_optEntry_ne _ _ (by decide),
      lookup_optEntry_ne _ _ (by decide),
      lookup_optEntry_ne _ _ (by decide),
      lookup_optEntry_ne _ _ (by decide),
      lookup_optEntry_ne _ _ (by decide),
      lookup_optEntry_ne _ _ (by decide),
      lookup_optEntry_ne _ _ (by decide),
      lookup_optEntry_ne _ _ (by decide),
      lookup_optEntry_ne _ _ (by decide),
      lookup_optEntry_ne _ _ (by decide),
      lookup_optEntry_ne' _ (by decide)]
  · simp only [_parameters_args, List.append_assoc]
    rw [lookup_optEntry_ne _ _ (by decide),
      lookup_optEntry_ne _ _ (by decide),
      lookup_optEntry_ne _ _ (by decide),
      lookup_optEntry_eq]
    rw [lookup_optEntry_ne _ _ (by decide),
      lookup_optEntry_ne _ _ (by decide),
      lookup_optEntry_ne _ _ (by decide),
      lookup_optEntry_ne _ _ (by decide),
      lookup_optEntry_ne _ _ (by decide),
      lookup_optEntry_ne _ _ (by decide),
      lookup_optEntry_ne _ _ (by decide),
      lookup_optEntry_ne _ _ (by decide),
      lookup_optEntry_ne _ _ (by decide),
      lookup_optEntry_ne _ _ (by decide),
      lookup_optEntry_ne _ _ (by decide),
      lookup_optEntry_ne _ _ (by decide),
      lookup_optEntry_ne _ _ (by decide),
      lookup_optEntry_ne _ _ (by decide),
      lookup_optEntry_ne _ _ (by decide),
      lookup_optEntry_ne' _ (by decide)]
  · simp only [_parameters_args, List.append_assoc]
    rw [lookup_optEntry_ne _ _ (by decide),
      lookup_optEntry_ne _ _ (by decide),
      lookup_optEntry_ne _ _ (by decide),
      lookup_optEntry_ne _ _ (by decide),
      lookup_optEntry_eq]
    rw [lookup_optEntry_ne _ _ (by decide),
      lookup_optEntry_ne _ _ (by decide),
      lookup_optEntry_ne _ _ (by decide),
      lookup_optEntry_ne _ _ (by decide),
      lookup_optEntry_ne _ _ (by decide),
      lookup_optEntry_ne _ _ (by decide),
      lookup_optEntry_ne _ _ (by decide),
      lookup_optEntry_ne _ _ (by decide),
      lookup_optEntry_ne _ _ (by decide),
      lookup_optEntry_ne _ _ (by decide),
      lookup_optEntry_ne _ _ (by decide),
      lookup_optEntry_ne _ _ (by decide),
      lookup_optEntry_ne _ _ (by decide),
      lookup_optEntry_ne _ _ (by decide),
      lookup_optEntry_ne' _ (by decide)]
  · simp only [_parameters_args, List.append_assoc]
    rw [lookup_optEntry_ne _ _ (by decide),
      lookup_optEntry_ne _ _ (by decide),
      lookup_optEntry_ne _ _ (by decide),
      lookup_optEntry_ne _ _ (by decide),
      lookup_optEntry_ne _ _ (by decide),
      lookup_optEntry_eq]
    rw [lookup_optEntry_ne _ _ (by decide),
      lookup_optEntry_ne _ _ (by decide),
      lookup_optEntry_ne _ _ (by decide),
      lookup_optEntry_ne _ _ (by decide),
      lookup_optEntry_ne _ _ (by decide),
      lookup_optEntry_ne _ _ (by decide),
      lookup_optEntry_ne _ _ (by decide),
      lookup_optEntry_ne _ _ (by decide),
      lookup_optEntry_ne _ _ (by decide),
      lookup_optEntry_ne _ _ (by decide),
      lookup_optEntry_ne _ _ (by decide),
      lookup_optEntry_ne _ _ (by decide),
      lookup_optEntry_ne _ _ (by decide),
      lookup_optEntry_ne' _ (by decide)]
  · simp only [_parameters_args, List.append_assoc]
    rw [lookup_optEntry_ne _ _ (by decide),
      lookup_optEntry_ne _ _ (by decide),
      lookup_optEntry_ne _ _ (by decide),
      lookup_optEntry_ne _ _ (by decide),
      lookup_optEntry_ne _ _ (by decide),
      lookup_optEntry_ne _ _ (by decide),
      lookup_optEntry_eq]
    rw [lookup_optEntry_ne _ _ (by decide),
      lookup_optEntry_ne _ _ (by decide),
      lookup_optEntry_ne _ _ (by decide),
      lookup_optEntry_ne _ _ (by decide),
      lookup_optEntry_ne _ _ (by decide),
      lookup_optEntry_ne _ _ (by decide),
      lookup_optEntry_ne _ _ (by decide),
      lookup_optEntry_ne _ _ (by decide),
      lookup_optEntry_ne _ _ (by decide),
      lookup_optEntry_ne _ _ (by decide),
      lookup_optEntry_ne _ _ (by decide),
      lookup_optEntry_ne _ _ (by decide),
      lookup_optEntry_ne' _ (by decide)]
  · simp only [_parameters_args, List.append_assoc]
    rw [lookup_optEntry_ne _ _ (by decide),
      lookup_optEntry_ne _ _ (by decide),
      lookup_optEntry_ne _ _ (by decide),
      lookup_optEntry_ne _ _ (by decide),
      lookup_optEntry_ne _ _ (by decide),
      lookup_optEntry_ne _ _ (by decide),
      lookup_optEntry_ne _ _ (by decide),
      lookup_optEntry_eq]
    rw [lookup_optEntry_ne _ _ (by decide),
      lookup_optEntry_ne _ _ (by decide),
      lookup_optEntry_ne _ _ (by decide),
      lookup_optEntry_ne _ _ (by decide),
      lookup_optEntry_ne _ _ (by decide),
      lookup_optEntry_ne _ _ (by decide),
      lookup_optEntry_ne _ _ (by decide),
      lookup_optEntry_ne _ _ (by decide),
      lookup_optEntry_ne _ _ (by decide),
      lookup_optEntry_ne _ _ (by decide),
      lookup_optEntry_ne _ _ (by decide),
      lookup_optEntry_ne' _ (by decide)]
  · simp only [_parameters_args, List.append_assoc]
    rw [lookup_optEntry_ne _ _ (by decide),
      lookup_optEntry_ne _ _ (by decide),
      lookup_optEntry_ne _ _ (by decide),
      lookup_optEntry_ne _ _ (by decide),
      lookup_optEntry_ne _ _ (by decide),
      lookup_optEntry_ne _ _ (by decide),
      lookup_optEntry_ne _ _ (by decide),
      lookup_optEntry_ne _ _ (by decide),
      lookup_optEntry_eq]
    rw [lookup_optEntry_ne _ _ (by decide),
      lookup_optEntry_ne _ _ (by decide),
      lookup_optEntry_ne _ _ (by decide),
      lookup_optEntry_ne _ _ (by decide),
      lookup_optEntry_ne _ _ (by decide),
      lookup_optEntry_ne _ _ (by decide),
      lookup_optEntry_ne _ _ (by decide),
      lookup_optEntry_ne _ _ (by decide),
      lookup_optEntry_ne _ _ (by decide),
      lookup_optEntry_ne _ _ (by decide),
      lookup_optEntry_ne' _ (by decide)]
  · simp only [_parameters_args, List.append_assoc]
    rw [lookup_optEntry_ne _ _ (by decide),
      lookup_optEntry_ne _ _ (by decide),
      lookup_optEntry_ne _ _ (by decide),
      lookup_optEntry_ne _ _ (by decide),
      lookup_optEntry_ne _ _ (by decide),
      lookup_optEntry_ne _ _ (by decide),
      lookup_optEntry_ne _ _ (by decide),
      lookup_optEntry_ne _ _ (by decide),
      lookup_optEntry_ne _ _ (by decide),
      lookup_optEntry_eq]
    rw [lookup_optEntry_ne _ _ (by decide),
      lookup_optEntry_ne _ _ (by decide),
      lookup_optEntry_ne _ _ (by decide),
      lookup_optEntry_ne _ _ (by decide),
      lookup_optEntry_ne _ _ (by decide),
      lookup_optEntry_ne _ _ (by decide),
      lookup_optEntry_ne _ _ (by decide),
      lookup_optEntry_ne _ _ (by decide),
      lookup_optEntry_ne _ _ (by decide),
      lookup_optEntry_ne' _ (by decide)]
  · simp only [_parameters_args, List.append_assoc]
    rw [lookup_optEntry_ne _ _ (by decide),
      lookup_optEntry_ne _ _ (by decide),
      lookup_optEntry_ne _ _ (by decide),
      lookup_optEntry_ne _ _ (by decide),
      lookup_optEntry_ne _ _ (by decide),
      lookup_optEntry_ne _ _ (by decide),
      lookup_optEntry_ne _ _ (by decide),
      lookup_optEntry_ne _ _ (by decide),
      lookup_optEntry_ne _ _ (by decide),
      lookup_optEntry_ne _ _ (by decide),
      lookup_optEntry_eq]
    rw [lookup_optEntry_ne _ _ (by decide),
      lookup_optEntry_ne _ _ (by decide),
      lookup_optEntry_ne _ _ (by decide),
      lookup_optEntry_ne _ _ (by decide),
      lookup_optEntry_ne _ _ (by decide),
      lookup_optEntry_ne _ _ (by decide),
      lookup_optEntry_ne _ _ (by decide),
      lookup_optEntry_ne _ _ (by decide),
      lookup_optEntry_ne' _ (by decide)]
  · simp only [_parameters_args, List.append_assoc]
    rw [lookup_optEntry_ne _ _ (by decide),
      lookup_optEntry_ne _ _ (by decide),
      lookup_optEntry_ne _ _ (by decide),
      lookup_optEntry_ne _ _ (by decide),
      lookup_optEntry_ne _ _ (by decide),
      lookup_optEntry_ne _ _ (by decide),
      lookup_optEntry_ne _ _ (by decide),
      lookup_optEntry_ne _ _ (by decide),
      lookup_optEntry_ne _ _ (by decide),
      lookup_optEntry_ne _ _ (by decide),
      lookup_optEntry_ne _ _ (by decide),
      lookup_optEntry_eq]
    rw [lookup_optEntry_ne _ _ (by decide),
      lookup_optEntry_ne _ _ (by decide),
      lookup_optEntry_ne _ _ (by decide),
      lookup_optEntry_ne _ _ (by decide),
      lookup_optEntry_ne _ _ (by decide),
      lookup_optEntry_ne _ _ (by decide),
      lookup_optEntry_ne _ _ (by decide),
      lookup_optEntry_ne' _ (by decide)]
  · simp only [_parameters_args, List.append_assoc]
    rw [lookup_optEntry_ne _ _ (by decide),
      lookup_optEntry_ne _ _ (by decide),
      lookup_optEntry_ne _ _ (by decide),
      lookup_optEntry_ne _ _ (by decide),
      lookup_optEntry_ne _ _ (by decide),
      lookup_optEntry_ne _ _ (by decide),
      lookup_optEntry_ne _ _ (by decide),
      lookup_optEntry_ne _ _ (by decide),
      lookup_optEntry_ne _ _ (by decide),
      lookup_optEntry_ne _ _ (by decide),
      lookup_optEntry_ne _ _ (by decide),
      lookup_optEntry_ne _ _ (by decide),
      lookup_optEntry_eq]
    rw [lookup_optEntry_ne _ _ (by decide),
      lookup_optEntry_ne _ _ (by decide),
      lookup_optEntry_ne _ _ (by decide),
      lookup_optEntry_ne _ _ (by decide),
      lookup_optEntry_ne _ _ (by decide),
      lookup_optEntry_ne _ _ (by decide),
      lookup_optEntry_ne' _ (by decide)]
  · simp only [_parameters_args, List.append_assoc]
    rw [lookup_optEntry_ne _ _ (by decide),
      lookup_optEntry_ne _ _ (by decide),
      lookup_optEntry_ne _ _ (by decide),
      lookup_optEntry_ne _ _ (by decide),
      lookup_optEntry_ne _ _ (by decide),
      lookup_optEntry_ne _ _ (by decide),
      lookup_optEntry_ne _ _ (by decide),
      lookup_optEntry_ne _ _ (by decide),
      lookup_optEntry_ne _ _ (by decide),
      lookup_optEntry_ne _ _ (by decide),
      lookup_optEntry_ne _ _ (by decide),
      lookup_optEntry_ne _ _ (by decide),
      lookup_optEntry_ne _ _ (by decide),
      lookup_optEntry_eq]
    rw [lookup_optEntry_ne _ _ (by decide),
      lookup_optEntry_ne _ _ (by decide),
      lookup_optEntry_ne _ _ (by decide),
      lookup_optEntry_ne _ _ (by decide),
      lookup_optEntry_ne _ _ (by decide),
      lookup_optEntry_ne' _ (by decide)]
  · simp only [_parameters_args, List.append_assoc]
    rw [lookup_optEntry_ne _ _ (by decide),
      lookup_optEntry_ne _ _ (by decide),
      lookup_optEntry_ne _ _ (by decide),
      lookup_optEntry_ne _ _ (by decide),
      lookup_optEntry_ne _ _ (by decide),
      lookup_optEntry_ne _ _ (by decide),
      lookup_optEntry_ne _ _ (by decide),
      lookup_optEntry_ne _ _ (by decide),
      lookup_optEntry_ne _ _ (by decide),
      lookup_optEntry_ne _ _ (by decide),
      lookup_optEntry_ne _ _ (by decide),
      lookup_optEntry_ne _ _ (by decide),
      lookup_optEntry_ne _ _ (by decide),
      lookup_optEntry_ne _ _ (by decide),
      lookup_optEntry_eq]
    rw [lookup_optEntry_ne _ _ (by decide),
      lookup_optEntry_ne _ _ (by decide),
      lookup_optEntry_ne _ _ (by decide),
      lookup_optEntry_ne _ _ (by decide),
      lookup_optEntry_ne' _ (by decide)]
  · simp only [_parameters_args, List.append_assoc]
    rw [lookup_optEntry_ne _ _ (by decide),
      lookup_optEntry_ne _ _ (by decide),
      lookup_optEntry_ne _ _ (by decide),
      lookup_optEntry_ne _ _ (by decide),
      lookup_optEntry_ne _ _ (by decide),
      lookup_optEntry_ne _ _ (by decide),
      lookup_optEntry_ne _ _ (by decide),
      lookup_optEntry_ne _ _ (by decide),
      lookup_optEntry_ne _ _ (by decide),
      lookup_optEntry_ne _ _ (by decide),
      lookup_optEntry_ne _ _ (by decide),
      lookup_optEntry_ne _ _ (by decide),
      lookup_optEntry_ne _ _ (by decide),
      lookup_optEntry_ne _ _ (by decide),
      lookup_optEntry_ne _ _ (by decide),
      lookup_optEntry_eq]
    rw [lookup_optEntry_ne _ _ (by decide),
      lookup_optEntry_ne _ _ (by decide),
      lookup_optEntry_ne _ _ (by decide),
      lookup_optEntry_ne' _ (by decide)]
  · simp only [_parameters_args, List.append_assoc]
    rw [lookup_optEntry_ne _ _ (by decide),
      lookup_optEntry_ne _ _ (by decide),
      lookup_optEntry_ne _ _ (by decide),
      lookup_optEntry_ne _ _ (by decide),
      lookup_optEntry_ne _ _ (by decide),
      lookup_optEntry_ne _ _ (by decide),
      lookup_optEntry_ne _ _ (by decide),
      lookup_optEntry_ne _ _ (by decide),
      lookup_optEntry_ne _ _ (by decide),
      lookup_optEntry_ne _ _ (by decide),
      lookup_optEntry_ne _ _ (by decide),
      lookup_optEntry_ne _ _ (by decide),
      lookup_optEntry_ne _ _ (by decide),
      lookup_optEntry_ne _ _ (by decide),
      lookup_optEntry_ne _ _ (by decide),
      lookup_optEntry_ne _ _ (by decide),
      lookup_optEntry_eq]
    rw [lookup_optEntry_ne _ _ (by decide),
      lookup_optEntry_ne _ _ (by decide),
      lookup_optEntry_ne' _ (by decide)]
  · simp only [_parameters_args, List.append_assoc]
    rw [lookup_optEntry_ne _ _ (by decide),
      lookup_optEntry_ne _ _ (by decide),
      lookup_optEntry_ne _ _ (by decide),
      lookup_optEntry_ne _ _ (by decide),
      lookup_optEntry_ne _ _ (by decide),
      lookup_optEntry_ne _ _ (by decide),
      lookup_optEntry_ne _ _ (by decide),
      lookup_optEntry_ne _ _ (by decide),
      lookup_optEntry_ne _ _ (by decide),
      lookup_optEntry_ne _ _ (by decide),
      lookup_optEntry_ne _ _ (by decide),
      lookup_optEntry_ne _ _ (by decide),
      lookup_optEntry_ne _ _ (by decide),
      lookup_optEntry_ne _ _ (by decide),
      lookup_optEntry_ne _ _ (by decide),
      lookup_optEntry_ne _ _ (by decide),
      lookup_optEntry_ne _ _ (by decide),
      lookup_optEntry_eq]
    rw [lookup_optEntry_ne _ _ (by decide),
      lookup_optEntry_ne' _ (by decide)]
  · simp only [_parameters_args, List.append_assoc]
    rw [lookup_optEntry_ne _ _ (by decide),
      lookup_optEntry_ne _ _ (by decide),
      lookup_optEntry_ne _ _ (by decide),
      lookup_optEntry_ne _ _ (by decide),
      lookup_optEntry_ne _ _ (by decide),
      lookup_optEntry_ne _ _ (by decide),
      lookup_optEntry_ne _ _ (by decide),
      lookup_optEntry_ne _ _ (by decide),
      lookup_optEntry_ne _ _ (by decide),
      lookup_optEntry_ne _ _ (by decide),
      lookup_optEntry_ne _ _ (by decide),
      lookup_optEntry_ne _ _ (by decide),
      lookup_optEntry_ne _ _ (by decide),
      lookup_optEntry_ne _ _ (by decide),
      lookup_optEntry_ne _ _ (by decide),
      lookup_optEntry_ne _ _ (by decide),
      lookup_optEntry_ne _ _ (by decide),
      lookup_optEntry_ne _ _ (by decide),
      lookup_optEntry_eq]
    rw [lookup_optEntry_ne' _ (by decide)]
  · simp only [_parameters_args, List.append_assoc]
    rw [lookup_optEntry_ne _ _ (by decide),
      lookup_optEntry_ne _ _ (by decide),
      lookup_optEntry_ne _ _ (by decide),
      lookup_optEntry_ne _ _ (by decide),
      lookup_optEntry_ne _ _ (by decide),
      lookup_optEntry_ne _ _ (by decide),
      lookup_optEntry_ne _ _ (by decide),
      lookup_optEntry_ne _ _ (by decide),
      lookup_optEntry_ne _ _ (by decide),
      lookup_optEntry_ne _ _ (by decide),
      lookup_optEntry_ne _ _ (by decide),
      lookup_optEntry_ne _ _ (by decide),
      lookup_optEntry_ne _ _ (by decide),
      lookup_optEntry_ne _ _ (by decide),
      lookup_optEntry_ne _ _ (by decide),
      lookup_optEntry_ne _ _ (by decide),
      lookup_optEntry_ne _ _ (by decide),
      lookup_optEntry_ne _ _ (by decide),
      lookup_optEntry_ne _ _ (by decide),
      lookup_optEntry_self]
  · show ((_parameters_args a).map Prod.fst).Sublist
        (["animal"] ++ (["breed"] ++ (["size"] ++ (["gender"] ++ (["age"] ++ (["color"] ++ (["coat"] ++ (["animal_type"] ++ (["location"] ++ (["distance"] ++ (["state"] ++ (["country"] ++ (["query"] ++ (["sort"] ++ (["name"] ++ (["animal_id"] ++ (["organization_id"] ++ (["status"] ++ (["limit"] ++ (["page"]))))))))))))))))))))
    simp only [_parameters_args, List.append_assoc, List.map_append]
    exact (optEntry_fst_sublist _ _).append ((optEntry_fst_sublist _ _).append ((optEntry_fst_sublist _ _).append ((optEntry_fst_sublist _ _).append ((optEntry_fst_sublist _ _).append ((optEntry_fst_sublist _ _).append ((optEntry_fst_sublist _ _).append ((optEntry_fst_sublist _ _).append ((optEntry_fst_sublist _ _).append ((optEntry_fst_sublist _ _).append ((optEntry_fst_sublist _ _).append ((optEntry_fst_sublist _ _).append ((optEntry_fst_sublist _ _).append ((optEntry_fst_sublist _ _).append ((optEntry_fst_sublist _ _).append ((optEntry_fst_sublist _ _).append ((optEntry_fst_sublist _ _).append ((optEntry_fst_sublist _ _).append ((optEntry_fst_sublist _ _).append (optEntry_fst_sublist _ _)))))))))))))))))))

/-- Witness for the C6 theorem at the spec's scenario C,
`results_per_page = 50` with `status` (and everything else) unset: the wire
mapping holds `limit: 50` and has no `status` key. -/
theorem parameters_wire_mapping_witness :
    _check_parameters (toCheck { noPArgs with results_per_page := some 50 }) = none ∧
    _parameters { noPArgs with results_per_page := some 50 }
      = .ok (_parameters_args { noPArgs with results_per_page := some 50 }) ∧
    List.lookup "limit"
        (_parameters_args { noPArgs with results_per_page := some 50 })
      = some (PVal.int 50) ∧
    List.lookup "status"
        (_parameters_args { noPArgs with results_per_page := some 50 }) = none := by
  have h := parameters_wire_mapping { noPArgs with results_per_page := some 50 }
    (by decide)
  exact ⟨by decide, h.1, by decide, by decide⟩

/-- Supporting lemma: when the requested page count `n` satisfies
`n + 1 ≤ total_pages`, no clamping happens and the aggregation fetches pages
1 through n in increasing order with no boundary notice. -/
theorem paginate_lt_total {α : Type} (fs : Option Nat → Page α) (n : Nat)
    (h : n + 1 ≤ (fs (some 1)).total_pages) :
    paginate fs n
      = ((1 :: List.range' 2 (n - 1)).flatMap (fun k => (fs (some k)).items),
         1 :: List.range' 2 (n - 1), false) := by
  have hngt : ¬ (n + 1 > (fs (some 1)).total_pages) := by omega
  have hsub : n + 1 - 2 = n - 1 := by omega
  simp [paginate, pageRange, hngt, hsub, List.flatMap_cons]

/-- C1 (code-bug evaluation): with `pages = 3` and server-reported
`total_pages = 2`, the aggregator returns only the page-1 items `[11]` and
issues no page-2 fetch (the request log holds only the page-1 search), even
though page 2 holds item `22`: after the clamp `pages = max_pages`, the loop
`range(2, pages)` stops one page short of the claimed pages 1..2.  The
boundary notice is produced and no exception is raised. -/
theorem animals_clamp_drops_last_page :
    animals (fun _ => 0) demoServer2 none noAnimalsArgs (some 3)
      = (.ok (.many [11]), [.search (some 1)], true) ∧
    organizations (fun _ => 0) demoServer2 none noOrgArgs (some 3)
      = (.ok (.many [11]), [.search (some 1)], true) ∧
    demoServer2 (some 1) = { items := [11], total_pages := 2 } ∧
    demoServer2 (some 2) = { items := [22], total_pages := 2 } :=
  ⟨rfl, rfl, rfl, rfl⟩

/-- C2 (code-bug evaluation): with `pages = 2` and `total_pages = 2`
(N = M, so N ≤ M), the aggregator clamps (`pages + 1 > total_pages` holds),
sets the boundary notice, and returns only the page-1 items `[11]` instead
of the claimed pages 1..2 with no notice.  With `pages = 1` the behavior is
as claimed: one page, no notice. -/
theorem animals_pages_equal_total_bug :
    animals (fun _ => 0) demoServer2 none noAnimalsArgs (some 2)
      = (.ok (.many [11]), [.search (some 1)], true) ∧
    organizations (fun _ => 0) demoServer2 none noOrgArgs (some 2)
      = (.ok (.many [11]), [.search (some 1)], true) ∧
    demoServer2 (some 2) = { items := [22], total_pages := 2 } ∧
    animals (fun _ => 0) demoServer2 none noAnimalsArgs (some 1)
      = (.ok (.many [11]), [.search (some 1)], false) :=
  ⟨rfl, rfl, rfl, rfl⟩

/-- C7: single-entity lookups bypass the search path and pagination
entirely: one explicit identifier performs exactly one direct fetch and
returns the bare record (not wrapped in a list); a collection of identifiers
performs one fetch per identifier, in input order, and returns the records
in that order. -/
theorem single_id_bypasses_pagination {α : Type}
    (fidA : Int → α) (fsA : Option Nat → Page α)
    (fidO : String → α) (fsO : Option Nat → Page α) :
    (∀ (i : Int) (args : AnimalsArgs) (pages : Option Nat),
      animals fidA fsA (some (.one i)) args pages
        = (.ok (.single (fidA i)), [.byId i], false)) ∧
    (∀ (ids : List Int) (args : AnimalsArgs) (pages : Option Nat),
      animals fidA fsA (some (.many ids)) args pages
        = (.ok (.many (ids.map fidA)), ids.map Req.byId, false)) ∧
    (∀ (i : String) (args : OrgArgs) (pages : Option Nat),
      organizations fidO fsO (some (.one i)) args pages
        = (.ok (.single (fidO i)), [.byId i], false)) ∧
    (∀ (ids : List String) (args : OrgArgs) (pages : Option Nat),
      organizations fidO fsO (some (.many ids)) args pages
        = (.ok (.many (ids.map fidO)), ids.map Req.byId, false)) :=
  ⟨fun _ _ _ => rfl, fun _ _ _ => rfl, fun _ _ _ => rfl, fun _ _ _ => rfl⟩

/-- C8: when validation fails, the search operations surface the validator's
error before any HTTP request: the result is the validation error, the
request log is empty, and no boundary notice is set.  The validator is the
pure function `_check_parameters`, evaluated before any fetch. -/
theorem validation_error_precedes_requests {α : Type} :
    (∀ (fid : Int → α) (fs : Option Nat → Page α) (args : AnimalsArgs)
        (pages : Option Nat) (e : String),
      _check_parameters (toCheck (animalsPArgs args)) = some e →
      animals fid fs none args pages = (.error e, [], false)) ∧
    (∀ (fid : String → α) (fs : Option Nat → Page α) (args : OrgArgs)
        (pages : Option Nat) (e : String),
      _check_parameters (toCheck (orgsPArgs args)) = some e →
      organizations fid fs none args pages = (.error e, [], false)) := by
  constructor
  · intro fid fs args pages e h
    simp [animals, _parameters, h]
  · intro fid fs args pages e h
    simp [organizations, _parameters, h]

/-- Witness for the C8 theorem at `distance = 501`: the validator fails and
the `animals` search returns that error with an empty request log. -/
theorem validation_error_precedes_requests_witness :
    _check_parameters (toCheck (animalsPArgs { noAnimalsArgs with distance := some 501 }))
      = some (distance_message ++ "\n") ∧
    animals (fun _ => (0 : Nat)) (fun _ => { items := [], total_pages := 1 }) none
        { noAnimalsArgs with distance := some 501 } none
      = (.error (distance_message ++ "\n"), [], false) := by
  refine ⟨by decide, ?_⟩
  exact (@validation_error_precedes_requests Nat).1 _ _ _ _ _ (by decide)

/-- C10: when an explicit identifier is supplied, every other filter
argument is ignored and never validated: the identifier branch's result does
not depend on the filter arguments, the page count, or the search fetcher,
and it always succeeds, even for filter values that would fail validation. -/
theorem id_branch_ignores_filters {α : Type} :
    (∀ (fid : Int → α) (fs fs' : Option Nat → Page α) (g : IdArg Int)
        (args args' : AnimalsArgs) (pages pages' : Option Nat),
      animals fid fs (some g) args pages = animals fid fs' (some g) args' pages') ∧
    (∀ (fid : Int → α) (fs : Option Nat → Page α) (g : IdArg Int)
        (args : AnimalsArgs) (pages : Option Nat),
      ∃ out, (animals fid fs (some g) args pages).1 = Except.ok out) ∧
    (∀ (fid : String → α) (fs fs' : Option Nat → Page α) (g : IdArg String)
        (args args' : OrgArgs) (pages pages' : Option Nat),
      organizations fid fs (some g) args pages
        = organizations fid fs' (some g) args' pages') ∧
    (∀ (fid : String → α) (fs : Option Nat → Page α) (g : IdArg String)
        (args : OrgArgs) (pages : Option Nat),
      ∃ out, (organizations fid fs (some g) args pages).1 = Except.ok out) := by
  refine ⟨?_, ?_, ?_, ?_⟩
  · intro fid fs fs' g args args' pages pages'
    cases g <;> rfl
  · intro fid fs g args pages
    cases g <;> exact ⟨_, rfl⟩
  · intro fid fs fs' g args args' pages pages'
    cases g <;> rfl
  · intro fid fs g args pages
    cases g <;> exact ⟨_, rfl⟩

end Petpy
